import Mathlib

/-!
Verification of the Diningnearby repository: a shallow embedding, in Lean, of
the pure data-and-control logic of its Python sources, together with theorems
settling the specification's claims about them.

Embedded sources:
* `src/Restaurantnear.py` — cuisine keyword classifier, best-review selector,
  price filtering stage of the nearby-restaurant search;
* `src/Restaurantreco.py` — session-state initialization, the paginated
  nearby-search controller of `RestaurantFinder`, the autocomplete helper and
  the wizard step handlers of `main`;
* `src/aichatbot.py` — `RestaurantRecommender.get_place_suggestions` and the
  session-state initialization used by its restart buttons;
* `src/unnamed/part_000` (`Cuisine list.py`) — the paginated fetch loop of
  `GooglePlacesRestaurantAnalyzer.fetch_restaurants_in_location`.

HTTP traffic is modelled by passing the decoded responses in as values: a
paginated run receives the list of successive nearby-search page responses
(requesting past the end of the list yields an `INVALID_REQUEST` page, the
way an expired or junk token answers), and the place-details endpoint is a
function from place id to its decoded response.  `st.error` / `print`
diagnostics are collected in an output list, `time.sleep(2)` calls and page
requests are counted.  Python strings are kept as `String`; where the code
lowercases or rewrites characters (`.lower()`, `.replace`, `.title()`) the
model works on the underlying character list so that everything evaluates.
-/

/-! ## Character-level helpers for Python string operations -/

/-- The character list of `s.lower()`: Python lowercases per character and the
strings involved here are plain ASCII. -/
def lowerChars (s : String) : List Char :=
  s.toList.map Char.toLower

/-- Whether `needle` occurs as a contiguous run inside `hay`: the Python
substring test `needle in hay` on the underlying characters. -/
def infixB (needle : List Char) : List Char → Bool
  | [] => needle.isEmpty
  | c :: cs => needle.isPrefixOf (c :: cs) || infixB needle cs

/-- Python `keyword in tag.lower()`. -/
def kwInTag (kw tag : String) : Bool :=
  infixB kw.toList (lowerChars tag)

/-- One step of Python `str.title()`: a cased character is uppercased when the
previous character was not alphabetic and lowercased otherwise. -/
def titleGo : List Char → Bool → List Char
  | [], _ => []
  | c :: cs, prevAlpha =>
      (if c.isAlpha then (if prevAlpha then c.toLower else c.toUpper) else c)
        :: titleGo cs c.isAlpha

/-- Python `s.title()`. -/
def pyTitle (s : String) : String :=
  String.mk (titleGo s.toList false)

/-- Python `s.replace("_", " ")` (single-character pattern). -/
def underscoreToSpace (s : String) : String :=
  String.mk (s.toList.map fun c => if c = '_' then ' ' else c)

/-! ## `src/Restaurantnear.py`: cuisine classifier, review selector, filters -/

/-- The `CUISINE_KEYWORDS` table of `src/Restaurantnear.py` lines 23–42, in
declaration order (Python dicts iterate in insertion order). -/
def CUISINE_KEYWORDS : List (String × List String) :=
  [("American", ["american", "burger", "grill"]),
   ("Italian", ["italian", "pizza", "pasta", "trattoria"]),
   ("Chinese", ["chinese", "dim sum", "cantonese", "sichuan"]),
   ("Mexican", ["mexican", "taco", "burrito", "tex-mex"]),
   ("Indian", ["indian", "curry", "tandoori", "north indian", "south indian"]),
   ("Japanese", ["japanese", "sushi", "ramen", "izakaya"]),
   ("Thai", ["thai", "pad thai", "thai cuisine"]),
   ("Mediterranean", ["mediterranean", "greek", "lebanese", "israeli"]),
   ("French", ["french", "bistro", "patisserie", "brasserie"]),
   ("Korean", ["korean", "bbq", "korean cuisine"]),
   ("Spanish", ["spanish", "tapas"]),
   ("Vietnamese", ["vietnamese", "pho"]),
   ("Greek", ["greek", "gyro", "souvlaki"]),
   ("Middle Eastern", ["middle eastern", "falafel", "kebab"]),
   ("Brazilian", ["brazilian", "churrascaria"]),
   ("Caribbean", ["caribbean", "jamaican"]),
   ("African", ["african", "ethiopian"]),
   ("German", ["german", "schnitzel"])]

/-- `any(keyword in type.lower() for type in types for keyword in keywords)`
(`src/Restaurantnear.py` line 190). -/
def entryMatches (types : List String) (keywords : List String) : Bool :=
  types.any fun t => keywords.any fun kw => kwInTag kw t

/-- The `for cuisine, keywords in CUISINE_KEYWORDS.items()` loop of
`filter_cuisine_types`, over an arbitrary table. -/
def cuisineLoop (table : List (String × List String)) (types : List String) :
    Option String :=
  match table with
  | [] => none
  | (cuisine, keywords) :: rest =>
      if entryMatches types keywords then some cuisine
      else cuisineLoop rest types

/-- `filter_cuisine_types` (`src/Restaurantnear.py` lines 187–192): first
matching label of the taxonomy, `none` for Python's `return None` (rendered
as `N/A` by the caller). -/
def filter_cuisine_types (types : List String) : Option String :=
  cuisineLoop CUISINE_KEYWORDS types

/-- One review as the selector sees it: `rating` is absent when the review
dict has no `rating` key; `text` stands in for the rest of the payload. -/
structure Review where
  rating : Option Nat
  text : String
deriving DecidableEq, Repr

/-- The sort key `lambda x: x.get('rating', 0)` of `get_best_review`. -/
def ratingKey (r : Review) : Nat :=
  r.rating.getD 0

/-- Insertion step of a stable descending sort: `a` passes every earlier
element with a strictly larger key and stops in front of the first element
whose key is ≤ its own, so elements with equal keys keep their original
relative order — the behaviour Python guarantees for `sorted(..., reverse=True)`. -/
def insertDesc (a : Review) : List Review → List Review
  | [] => [a]
  | b :: bs => if ratingKey b ≤ ratingKey a then a :: b :: bs else b :: insertDesc a bs

/-- Stable sort by rating descending: the model of
`sorted(reviews, key=lambda x: x.get('rating', 0), reverse=True)`
(`src/Restaurantnear.py` line 201).  Python's `sorted` is stable, and a stable
sort over a total key order is unique as a function, so insertion sort renders
it faithfully. -/
def sortByRatingDesc : List Review → List Review
  | [] => []
  | a :: as => insertDesc a (sortByRatingDesc as)

/-- `get_best_review` (`src/Restaurantnear.py` lines 195–202): `None` on an
empty (falsy) list, else the head of the stable descending sort. -/
def get_best_review (reviews : List Review) : Option Review :=
  if reviews.isEmpty then none
  else (sortByRatingDesc reviews).head?

/-- Specification-side restatement (for the review-selector claims): the
first review of the list whose rating key is maximal — a later review wins
only with a strictly larger key. -/
def specFirstMaxReview : List Review → Option Review
  | [] => none
  | a :: as =>
      match specFirstMaxReview as with
      | none => some a
      | some b => if ratingKey b ≤ ratingKey a then some a else some b

/-- One row of a nearby-search result as the price filter sees it:
`price_level` is absent when the place dict has no such key. -/
structure NearPlace where
  name : String
  price_level : Option Nat
deriving DecidableEq, Repr

/-- Python truthiness of the `price_filter` argument (`None` and `0` are
falsy). -/
def pyTruthyNat (o : Option Nat) : Bool :=
  match o with
  | none => false
  | some n => n != 0

/-- The price-filter stage of `get_nearby_restaurants`
(`src/Restaurantnear.py` lines 150–155):
`if price_filter: filtered = [r for r in filtered if r.get('price_level') == price_filter]`. -/
def priceFilterStage (price_filter : Option Nat) (rests : List NearPlace) :
    List NearPlace :=
  if pyTruthyNat price_filter then
    rests.filter fun r => r.price_level == price_filter
  else rests

/-! ## Shared pagination model

A nearby-search page response as the controllers decode it.  The environment
provides the successive page responses as a list; a request past its end
(the token was junk or expired) answers with an `INVALID_REQUEST` page, which
every controller treats as an error and which therefore also terminates the
model's loops. -/

/-- One result row of a nearby-search page (`place['place_id']`). -/
structure PlaceRow where
  place_id : String
deriving DecidableEq, Repr

/-- A decoded nearby-search page: `status` (always present in these
responses), the optional `error_message`, the `results` rows (`data.get
('results', [])`), and the optional `next_page_token`. -/
structure PageResp where
  status : String
  error_message : Option String
  results : List PlaceRow
  next_page_token : Option String
deriving DecidableEq, Repr

/-- The page a request with a dead token decodes to. -/
def invalidPage : PageResp :=
  { status := "INVALID_REQUEST", error_message := none, results := [],
    next_page_token := none }

/-! ## `src/Restaurantreco.py`: `RestaurantFinder.get_nearby_restaurants` -/

/-- A decoded place-details `result` as `get_nearby_restaurants` accumulates
it; the claims only count these records, so one representative field is kept. -/
structure PlaceDetail where
  name : String
deriving DecidableEq, Repr

/-- Observable outcome of a paginated run of `get_nearby_restaurants`:
the accumulated details, the `st.error` diagnostics in order, the number of
nearby-search page requests issued and the number of `time.sleep(2)` calls. -/
structure FetchOut where
  results : List PlaceDetail
  errors : List String
  requests : Nat
  sleeps : Nat
deriving DecidableEq, Repr

/-- The `st.error` calls of the non-OK branch (`src/Restaurantreco.py` lines
150–152): the status, then the `error_message` when the response carries one. -/
def pageErrors (data : PageResp) : List String :=
  ("Places API Error: " ++ data.status) ::
    (match data.error_message with
     | some m => ["Error Message: " ++ m]
     | none => [])

/-- The `while True` loop of `get_nearby_restaurants`
(`src/Restaurantreco.py` lines 148–177).  `d` is the place-details endpoint
(`get_place_details`, `none` when it fails); `data` the page being processed,
`rest` the responses to the page requests still to come.  Faithful control
flow: a non-OK, non-ZERO_RESULTS status breaks with the accumulator; the
whole current page is detailed and appended; then the loop breaks when the
accumulator has reached `max_results` or the page has no `next_page_token`,
and only otherwise sleeps 2 seconds and requests the next page. -/
def grLoop (d : String → Option PlaceDetail) (maxResults : Nat)
    (data : PageResp) (rest : List PageResp) (acc : List PlaceDetail)
    (errs : List String) (reqs sleeps : Nat) : FetchOut :=
  if data.status ≠ "OK" ∧ data.status ≠ "ZERO_RESULTS" then
    { results := acc, errors := errs ++ pageErrors data,
      requests := reqs, sleeps := sleeps }
  else
    -- `current_page_results` is `data.results.filterMap fun p => d p.place_id`
    -- and the new accumulator `all_results` is `acc` followed by it
    if maxResults ≤ (acc ++ data.results.filterMap fun p => d p.place_id).length
        ∨ data.next_page_token = none then
      { results := acc ++ data.results.filterMap fun p => d p.place_id,
        errors := errs, requests := reqs, sleeps := sleeps }
    else
      match rest with
      | [] =>
          -- the request made with the token decodes to `invalidPage`, whose
          -- status fails the check at the top of the next iteration
          { results := acc ++ data.results.filterMap fun p => d p.place_id,
            errors := errs ++ pageErrors invalidPage,
            requests := reqs + 1, sleeps := sleeps + 1 }
      | next :: rest2 =>
          grLoop d maxResults next rest2
            (acc ++ data.results.filterMap fun p => d p.place_id)
            errs (reqs + 1) (sleeps + 1)

/-- `RestaurantFinder.get_nearby_restaurants` (`src/Restaurantreco.py` lines
128–186): one initial page request, then the loop.  `pages` are the decoded
responses the environment returns to the successive page requests. -/
def get_nearby_restaurants (d : String → Option PlaceDetail) (maxResults : Nat)
    (pages : List PageResp) : FetchOut :=
  match pages with
  | [] => grLoop d maxResults invalidPage [] [] [] 1 0
  | p :: ps => grLoop d maxResults p ps [] [] 1 0

/-! ## `src/unnamed/part_000`: `fetch_restaurants_in_location` -/

/-- `editorial_summary` as `_extract_cuisine_types` reads it; `language` is
absent when the dict has no such key.  A present-but-falsy (empty) summary
dict behaves exactly like an absent one in the source (`if 'editorial_summary'
in details and details['editorial_summary']:`), so `none` covers both. -/
structure EditorialSummary where
  language : Option String
deriving DecidableEq, Repr

/-- A decoded place-details `result` for the analyzer: `name` and `types` are
absent when the response has no such key. -/
structure PlaceInfo where
  name : Option String
  types : Option (List String)
  editorial_summary : Option EditorialSummary
deriving DecidableEq, Repr

/-- A decoded place-details response: `status`, and `result`
(`details_data.get('result', {})` defaults to the empty dict). -/
structure DetailsResp where
  status : String
  result : Option PlaceInfo
deriving DecidableEq, Repr

/-- The empty details dict `{}` that `details_data.get('result', {})` falls
back to. -/
def emptyPlaceInfo : PlaceInfo :=
  { name := none, types := none, editorial_summary := none }

/-- `GooglePlacesRestaurantAnalyzer._extract_cuisine_types`
(`src/unnamed/part_000` lines 20–38). -/
def extract_cuisine_types (details : PlaceInfo) : List String :=
  let fromTypes :=
    match details.types with
    | none => []
    | some ts =>
        (ts.filter fun t =>
            t ∈ ["restaurant", "food", "meal_takeaway", "meal_delivery"]).map
          fun t => pyTitle (underscoreToSpace t)
  let fromSummary :=
    match details.editorial_summary with
    | none => []
    | some e => [e.language.getD "Unknown"]
  let cuisine_types := fromTypes ++ fromSummary
  if cuisine_types.isEmpty then ["Unknown"] else cuisine_types

/-- One record the analyzer appends to `self.restaurants`. -/
structure RInfo where
  name : String
  cuisine_types : List String
deriving DecidableEq, Repr

/-- Observable outcome of a `fetch_restaurants_in_location` run: the
`self.restaurants` list on return, the printed error diagnostics, the number
of nearby-search page requests and of `time.sleep(2)` calls. -/
structure AnalyzerOut where
  restaurants : List RInfo
  errors : List String
  requests : Nat
  sleeps : Nat
deriving DecidableEq, Repr

/-- The record `fetch_restaurants_in_location` appends to `self.restaurants`
for one place (`src/unnamed/part_000` lines 83–86). -/
def analyzerRecord (dd : String → DetailsResp) (p : PlaceRow) : RInfo :=
  let placeDetails := (dd p.place_id).result.getD emptyPlaceInfo
  { name := placeDetails.name.getD "Unknown",
    cuisine_types := extract_cuisine_types placeDetails }

/-- The `for place in data.get('results', [])` body (`src/unnamed/part_000`
lines 67–88): breaks as soon as `restaurants_found >= max_results` — the cap
is enforced mid-page — and otherwise details the place, appending a record
and incrementing the counter only when the details status is OK.  Returns the
updated `(restaurants, restaurants_found)`. -/
def processPlaces (dd : String → DetailsResp) (maxResults : Nat) :
    List PlaceRow → List RInfo → Nat → List RInfo × Nat
  | [], rs, found => (rs, found)
  | p :: ps, rs, found =>
      if maxResults ≤ found then (rs, found)
      else
        if (dd p.place_id).status = "OK" then
          processPlaces dd maxResults ps (rs ++ [analyzerRecord dd p]) (found + 1)
        else processPlaces dd maxResults ps rs found

/-- The `while restaurants_found < max_results` loop of
`fetch_restaurants_in_location` (`src/unnamed/part_000` lines 46–100).
Faithful control flow: the cap is re-checked only at the top of the loop; a
status other than OK (ZERO_RESULTS included) prints an error and breaks;
after processing a page the loop breaks when there is no `next_page_token`,
and otherwise sleeps 2 seconds BEFORE the cap is looked at again. -/
def frilLoop (dd : String → DetailsResp) (maxResults : Nat) :
    List PageResp → List RInfo → Nat → List String → Nat → Nat → AnalyzerOut
  | [], restaurants, found, errs, reqs, sleeps =>
      -- the cap check `restaurants_found < max_results` comes first; when it
      -- passes, the page request decodes to `invalidPage`: not OK, so the
      -- loop prints the error and breaks
      if found < maxResults then
        { restaurants := restaurants,
          errors := errs ++ ["Error fetching restaurants: " ++ invalidPage.status],
          requests := reqs + 1, sleeps := sleeps }
      else
        { restaurants := restaurants, errors := errs,
          requests := reqs, sleeps := sleeps }
  | data :: rest, restaurants, found, errs, reqs, sleeps =>
      if found < maxResults then
        if data.status ≠ "OK" then
          { restaurants := restaurants,
            errors := errs ++ ["Error fetching restaurants: " ++ data.status],
            requests := reqs + 1, sleeps := sleeps }
        else
          -- the inner for-loop updates `(restaurants, restaurants_found)`
          match data.next_page_token with
          | none =>
              { restaurants := (processPlaces dd maxResults data.results restaurants found).1,
                errors := errs, requests := reqs + 1, sleeps := sleeps }
          | some _ =>
              frilLoop dd maxResults rest
                (processPlaces dd maxResults data.results restaurants found).1
                (processPlaces dd maxResults data.results restaurants found).2
                errs (reqs + 1) (sleeps + 1)
      else
        { restaurants := restaurants, errors := errs,
          requests := reqs, sleeps := sleeps }

/-- `GooglePlacesRestaurantAnalyzer.fetch_restaurants_in_location`
(`src/unnamed/part_000` lines 40–103).  `initRestaurants` is the
`self.restaurants` instance state on entry (the method appends to it and
returns it); `restaurants_found` starts at 0 each call. -/
def fetch_restaurants_in_location (dd : String → DetailsResp) (maxResults : Nat)
    (pages : List PageResp) (initRestaurants : List RInfo) : AnalyzerOut :=
  frilLoop dd maxResults pages initRestaurants 0 [] 0 0

/-! ## Autocomplete suggestions (`get_place_suggestions`)

Two variants are in the sources: `RestaurantFinder.get_place_suggestions`
(`src/Restaurantreco.py` lines 63–91), which checks the HTTP status code and
the upstream `status` field, and `RestaurantRecommender.get_place_suggestions`
(`src/aichatbot.py` lines 30–39), which reads `predictions` with a default
and never looks at `status` (its `except Exception` catches everything, so it
is total). -/

/-- One autocomplete prediction (`prediction['description']`). -/
structure Prediction where
  description : String
deriving DecidableEq, Repr

/-- A decoded autocomplete response; `status` and `predictions` are absent
when the JSON object has no such key. -/
structure AutoResp where
  status : Option String
  error_message : Option String
  predictions : Option (List Prediction)
deriving DecidableEq, Repr

/-- `RestaurantFinder.get_place_suggestions` (`src/Restaurantreco.py` lines
63–91).  Returns `(suggestions, st.error diagnostics)`; `Except.error` is the
uncaught `KeyError` raised by `data['status']` on a response with no `status`
field (the `except` clause only catches `requests.RequestException`). -/
def reco_get_place_suggestions (statusCode : Nat) (r : AutoResp) :
    Except String (List String × List String) :=
  if statusCode ≠ 200 then
    Except.ok ([], ["API Error: Status Code " ++ toString statusCode])
  else
    match r.status with
    | none => Except.error "KeyError: status"
    | some s =>
        if s ≠ "OK" then
          Except.ok ([], ("API Error: " ++ s) ::
            (match r.error_message with
             | some m => ["Error Message: " ++ m]
             | none => []))
        else
          Except.ok ((r.predictions.getD []).map Prediction.description, [])

/-- `RestaurantRecommender.get_place_suggestions` (`src/aichatbot.py` lines
30–39): `response.json().get('predictions', [])` mapped to descriptions, with
no status check of any kind. -/
def chatbot_get_place_suggestions (r : AutoResp) : List String :=
  (r.predictions.getD []).map Prediction.description

/-! ## Session state (`src/Restaurantreco.py` and `src/aichatbot.py`)

Streamlit's `st.session_state` is a key-value store: each field below is
`none` when the key is absent and `some v` when it is present with value `v`
(which may itself be Python `None`, hence the nested `Option`s). -/

/-- A resolved location (`get_location_coordinates` result).  No arithmetic is
ever performed on the coordinates, so they are carried as integers. -/
structure LocationData where
  lat : Int
  lng : Int
  formatted_address : String
deriving DecidableEq, Repr

/-- One parsed preference question. -/
structure Question where
  question : String
  options : List String
deriving DecidableEq, Repr

/-- The session state of `src/Restaurantreco.py` (`default_state`, lines
33–46): outer `Option` is key presence. -/
structure RecoSession where
  step : Option Nat
  total_steps : Option Nat
  location : Option (Option String)
  location_data : Option (Option LocationData)
  establishment_type : Option (Option String)
  distance : Option (Option Nat)
  restaurants_data : Option (Option (List PlaceDetail))
  max_results : Option Nat
  current_question : Option Nat
  questions : Option (Option (List Question))
  answers : Option (List (String × String))
  final_recommendation : Option (Option String)
deriving DecidableEq, Repr

/-- `initialize_session_state` (`src/Restaurantreco.py` lines 31–50): every
key absent from the session is set to its default; a key already present is
left untouched (`if key not in st.session_state`). -/
def initialize_session_state (s : RecoSession) : RecoSession :=
  { step := some (s.step.getD 1),
    total_steps := some (s.total_steps.getD 6),
    location := some (s.location.getD none),
    location_data := some (s.location_data.getD none),
    establishment_type := some (s.establishment_type.getD none),
    distance := some (s.distance.getD none),
    restaurants_data := some (s.restaurants_data.getD none),
    max_results := some (s.max_results.getD 60),
    current_question := some (s.current_question.getD 0),
    questions := some (s.questions.getD none),
    answers := some (s.answers.getD []),
    final_recommendation := some (s.final_recommendation.getD none) }

/-- The session with every key absent (a fresh session, or the state after
`for key in list(st.session_state.keys()): del st.session_state[key]`). -/
def emptyRecoSession : RecoSession :=
  { step := none, total_steps := none, location := none, location_data := none,
    establishment_type := none, distance := none, restaurants_data := none,
    max_results := none, current_question := none, questions := none,
    answers := none, final_recommendation := none }

/-- The `Restart` button handler of step 4 (`src/Restaurantreco.py` lines
708–710): it calls `initialize_session_state()` alone, deleting nothing.
The restart buttons of `src/aichatbot.py` (lines 231–233 and 279–281) call
their `initialize_session_state` the same way, and that function fills absent
keys only as well (lines 174–188). -/
def restart_click (s : RecoSession) : RecoSession :=
  initialize_session_state s

/-- The `Start New Search` button handler of step 5 (`src/Restaurantreco.py`
lines 728–732): every session key is deleted, then
`initialize_session_state()` runs on the emptied store. -/
def start_new_search (_s : RecoSession) : RecoSession :=
  initialize_session_state emptyRecoSession

/-! ## Wizard step handlers of `main` (`src/Restaurantreco.py`) -/

/-- A decoded geocoding `results[0]` entry. -/
structure GeoResult where
  lat : Int
  lng : Int
  formatted_address : String
deriving DecidableEq, Repr

/-- A decoded geocoding response (its `status` is always present in these
responses). -/
structure GeoResp where
  status : String
  error_message : Option String
  results : List GeoResult
deriving DecidableEq, Repr

/-- `RestaurantFinder.get_location_coordinates` (`src/Restaurantreco.py`
lines 93–126).  Returns `(resolved location or None, st.error diagnostics)`;
`Except.error` is the uncaught `IndexError` of `data['results'][0]` on an OK
response with an empty results list. -/
def get_location_coordinates (statusCode : Nat) (r : GeoResp) :
    Except String (Option LocationData × List String) :=
  if statusCode ≠ 200 then
    Except.ok (none, ["Geocoding API Error: Status Code " ++ toString statusCode])
  else
    if r.status ≠ "OK" then
      Except.ok (none, ("Geocoding Error: " ++ r.status) ::
        (match r.error_message with
         | some m => ["Error Message: " ++ m]
         | none => []))
    else
      match r.results with
      | [] => Except.error "IndexError: list index out of range"
      | g :: _ =>
          Except.ok (some { lat := g.lat, lng := g.lng,
                            formatted_address := g.formatted_address }, [])

/-- The `Next` handler of step 1 (`src/Restaurantreco.py` lines 616–623):
resolve the selected location; on success store it and advance to step 2, on
a soft failure leave the session untouched with the resolver's diagnostics,
and on the resolver's uncaught exception leave the session untouched with the
exception surfaced by the UI framework. -/
def location_next (statusCode : Nat) (resp : GeoResp) (selected : String)
    (s : RecoSession) : RecoSession × List String :=
  match get_location_coordinates statusCode resp with
  | Except.error e => (s, [e])
  | Except.ok (none, errs) => (s, errs)
  | Except.ok (some ld, errs) =>
      ({ s with location := some (some selected),
                location_data := some (some ld),
                step := some 2 }, errs)

/-- The `distance_options` dict of step 2 (`src/Restaurantreco.py` lines
631–637), in declaration order. -/
def distance_options : List (String × Nat) :=
  [("Within 1 km", 1000), ("Within 3 km", 3000), ("Within 5 km", 5000),
   ("Within 10 km", 10000), ("Within 20 km", 20000)]

/-- Python dict lookup `distance_options[selected_distance]`. -/
def lookupDistance (sel : String) : Option Nat :=
  (distance_options.find? fun e => e.1 == sel).map Prod.snd

/-- The `Next` handler of step 2 (`src/Restaurantreco.py` lines 641–644):
`st.session_state.distance = distance_options[selected_distance]` then
`st.session_state.step = 3`.  A selection that is no key of the dict raises
`KeyError` before either assignment, so the session is unchanged and the
exception is surfaced by the UI framework. -/
def distance_next (sel : String) (s : RecoSession) : RecoSession × List String :=
  match lookupDistance sel with
  | none => (s, ["KeyError: " ++ sel])
  | some dist => ({ s with distance := some (some dist), step := some 3 }, [])

/-- The `Search` handler of step 3 (`src/Restaurantreco.py` lines 663–678):
the establishment type is stored first in either case; then the paginated
fetch runs with `st.session_state.max_results`, and only a non-empty result
list advances to step 4 — an empty one surfaces an error and leaves the step
untouched. -/
def search_next (d : String → Option PlaceDetail) (pages : List PageResp)
    (selType : String) (s : RecoSession) : RecoSession × List String :=
  let s1 := { s with establishment_type := some (some selType) }
  let restaurants := (get_nearby_restaurants d (s.max_results.getD 60) pages).results
  if restaurants.isEmpty then
    (s1, ["No establishments found. Try different criteria."])
  else
    ({ s1 with restaurants_data := some (some restaurants), step := some 4 }, [])

/-! ## Lemmas about the review selector -/

theorem specFirstMaxReview_cons_of_none (a : Review) (as : List Review)
    (hs : specFirstMaxReview as = none) :
    specFirstMaxReview (a :: as) = some a := by
  simp [specFirstMaxReview, hs]

theorem specFirstMaxReview_cons_of_some (a b : Review) (as : List Review)
    (hs : specFirstMaxReview as = some b) :
    specFirstMaxReview (a :: as)
      = if ratingKey b ≤ ratingKey a then some a else some b := by
  simp [specFirstMaxReview, hs]

theorem specFirstMaxReview_isSome (a : Review) (as : List Review) :
    (specFirstMaxReview (a :: as)).isSome = true := by
  cases hs : specFirstMaxReview as with
  | none => rw [specFirstMaxReview_cons_of_none a as hs]; rfl
  | some b =>
      rw [specFirstMaxReview_cons_of_some a b as hs]
      by_cases hk : ratingKey b ≤ ratingKey a <;> simp [hk]

theorem specFirstMaxReview_eq_none_iff (l : List Review) :
    specFirstMaxReview l = none ↔ l = [] := by
  cases l with
  | nil => simp [specFirstMaxReview]
  | cons a as =>
      have h := specFirstMaxReview_isSome a as
      constructor
      · intro hn
        rw [hn] at h
        cases h
      · intro hn
        cases hn

theorem insertDesc_ne_nil (a : Review) (l : List Review) : insertDesc a l ≠ [] := by
  cases l with
  | nil => simp [insertDesc]
  | cons b bs =>
      unfold insertDesc
      split <;> simp

theorem sortByRatingDesc_eq_nil_iff (l : List Review) :
    sortByRatingDesc l = [] ↔ l = [] := by
  cases l with
  | nil => simp [sortByRatingDesc]
  | cons a as =>
      simp only [sortByRatingDesc]
      exact ⟨fun h => absurd h (insertDesc_ne_nil a _), fun h => by cases h⟩

theorem sortByRatingDesc_head_eq_spec (l : List Review) :
    (sortByRatingDesc l).head? = specFirstMaxReview l := by
  induction l with
  | nil => rfl
  | cons a as ih =>
      show (insertDesc a (sortByRatingDesc as)).head? = _
      cases h : sortByRatingDesc as with
      | nil =>
          have has : as = [] := (sortByRatingDesc_eq_nil_iff as).mp h
          subst has
          simp [insertDesc, specFirstMaxReview]
      | cons b bs =>
          have h2 : specFirstMaxReview as = some b := by
            rw [← ih, h]; rfl
          rw [specFirstMaxReview_cons_of_some a b as h2]
          by_cases hk : ratingKey b ≤ ratingKey a <;> simp [insertDesc, hk]

theorem get_best_review_eq_spec (l : List Review) :
    get_best_review l = specFirstMaxReview l := by
  cases l with
  | nil => rfl
  | cons a as =>
      show (sortByRatingDesc (a :: as)).head? = _
      exact sortByRatingDesc_head_eq_spec (a :: as)

theorem specFirstMaxReview_mem_max (l : List Review) (r : Review)
    (h : specFirstMaxReview l = some r) :
    r ∈ l ∧ ∀ x ∈ l, ratingKey x ≤ ratingKey r := by
  induction l generalizing r with
  | nil => cases h
  | cons a as ih =>
      cases hs : specFirstMaxReview as with
      | none =>
          rw [specFirstMaxReview_cons_of_none a as hs] at h
          injection h with h2
          subst h2
          have has : as = [] := (specFirstMaxReview_eq_none_iff as).mp hs
          subst has
          exact ⟨List.mem_singleton_self _, by simp⟩
      | some b =>
          rw [specFirstMaxReview_cons_of_some a b as hs] at h
          obtain ⟨hbmem, hbmax⟩ := ih b hs
          by_cases hk : ratingKey b ≤ ratingKey a
          · rw [if_pos hk] at h
            injection h with h2
            subst h2
            refine ⟨List.mem_cons_self _ _, ?_⟩
            intro x hx
            rcases List.mem_cons.mp hx with rfl | hxas
            · exact Nat.le_refl _
            · exact Nat.le_trans (hbmax x hxas) hk
          · rw [if_neg hk] at h
            injection h with h2
            subst h2
            refine ⟨List.mem_cons_of_mem a hbmem, ?_⟩
            intro x hx
            rcases List.mem_cons.mp hx with rfl | hxas
            · exact Nat.le_of_lt (Nat.lt_of_not_le hk)
            · exact hbmax x hxas

theorem specFirstMaxReview_all_unrated (l : List Review)
    (h : ∀ x ∈ l, x.rating = none) : specFirstMaxReview l = l.head? := by
  cases l with
  | nil => rfl
  | cons a as =>
      cases hs : specFirstMaxReview as with
      | none => rw [specFirstMaxReview_cons_of_none a as hs]; rfl
      | some b =>
          have hb : b ∈ as := (specFirstMaxReview_mem_max as b hs).1
          have hkb : ratingKey b = 0 := by
            unfold ratingKey
            rw [h b (List.mem_cons_of_mem a hb)]
            rfl
          rw [specFirstMaxReview_cons_of_some a b as hs, hkb]
          simp

/-! ## Lemmas about the pagination controllers -/

theorem grLoop_bad_status (d : String → Option PlaceDetail) (maxResults : Nat)
    (data : PageResp) (rest : List PageResp) (acc : List PlaceDetail)
    (errs : List String) (reqs sleeps : Nat)
    (h1 : data.status ≠ "OK") (h2 : data.status ≠ "ZERO_RESULTS") :
    grLoop d maxResults data rest acc errs reqs sleeps
      = { results := acc, errors := errs ++ pageErrors data,
          requests := reqs, sleeps := sleeps } := by
  unfold grLoop
  rw [if_pos ⟨h1, h2⟩]

theorem grLoop_capped (d : String → Option PlaceDetail) (maxResults : Nat)
    (data : PageResp) (rest : List PageResp) (acc : List PlaceDetail)
    (errs : List String) (reqs sleeps : Nat)
    (h : maxResults ≤ acc.length
          + (data.results.filterMap fun p => d p.place_id).length) :
    (grLoop d maxResults data rest acc errs reqs sleeps).requests = reqs
      ∧ (grLoop d maxResults data rest acc errs reqs sleeps).sleeps = sleeps := by
  have hlen : maxResults
      ≤ (acc ++ data.results.filterMap fun p => d p.place_id).length := by
    rw [List.length_append]; exact h
  unfold grLoop
  split
  · exact ⟨rfl, rfl⟩
  · split
    · exact ⟨rfl, rfl⟩
    · rename_i hcond
      exact absurd (Or.inl hlen) hcond

theorem frilLoop_at_cap (dd : String → DetailsResp) (maxResults : Nat)
    (pages : List PageResp) (restaurants : List RInfo) (found : Nat)
    (errs : List String) (reqs sleeps : Nat) (h : maxResults ≤ found) :
    frilLoop dd maxResults pages restaurants found errs reqs sleeps
      = { restaurants := restaurants, errors := errs,
          requests := reqs, sleeps := sleeps } := by
  cases pages with
  | nil =>
      unfold frilLoop
      rw [if_neg (Nat.not_lt.mpr h)]
  | cons data rest =>
      unfold frilLoop
      rw [if_neg (Nat.not_lt.mpr h)]

theorem processPlaces_found_le (dd : String → DetailsResp) (maxResults : Nat)
    (ps : List PlaceRow) (rs : List RInfo) (found : Nat) (h : found ≤ maxResults) :
    (processPlaces dd maxResults ps rs found).2 ≤ maxResults := by
  induction ps generalizing rs found with
  | nil => exact h
  | cons p ps ih =>
      by_cases hc : maxResults ≤ found
      · simp only [processPlaces, if_pos hc]
        exact h
      · have hlt : found < maxResults := Nat.lt_of_not_le hc
        by_cases hok : (dd p.place_id).status = "OK"
        · simp only [processPlaces, if_neg hc, if_pos hok]
          exact ih _ _ hlt
        · simp only [processPlaces, if_neg hc, if_neg hok]
          exact ih _ _ h

theorem processPlaces_found_ge (dd : String → DetailsResp) (maxResults : Nat)
    (ps : List PlaceRow) (rs : List RInfo) (found : Nat) :
    found ≤ (processPlaces dd maxResults ps rs found).2 := by
  induction ps generalizing rs found with
  | nil => exact Nat.le_refl _
  | cons p ps ih =>
      by_cases hc : maxResults ≤ found
      · simp only [processPlaces, if_pos hc]
        exact Nat.le_refl _
      · by_cases hok : (dd p.place_id).status = "OK"
        · simp only [processPlaces, if_neg hc, if_pos hok]
          exact Nat.le_trans (Nat.le_succ found) (ih _ _)
        · simp only [processPlaces, if_neg hc, if_neg hok]
          exact ih _ _

theorem processPlaces_length (dd : String → DetailsResp) (maxResults : Nat)
    (ps : List PlaceRow) (rs : List RInfo) (found : Nat) :
    (processPlaces dd maxResults ps rs found).1.length + found
      = (processPlaces dd maxResults ps rs found).2 + rs.length := by
  induction ps generalizing rs found with
  | nil => simp [processPlaces, Nat.add_comm]
  | cons p ps ih =>
      by_cases hc : maxResults ≤ found
      · simp only [processPlaces, if_pos hc]
        exact Nat.add_comm _ _
      · by_cases hok : (dd p.place_id).status = "OK"
        · simp only [processPlaces, if_neg hc, if_pos hok]
          have h2 := ih (rs ++ [analyzerRecord dd p]) (found + 1)
          simp only [List.length_append, List.length_cons, List.length_nil] at h2 ⊢
          omega
        · simp only [processPlaces, if_neg hc, if_neg hok]
          exact ih _ _

theorem frilLoop_length_le (dd : String → DetailsResp) (maxResults : Nat)
    (pages : List PageResp) (restaurants : List RInfo) (found : Nat)
    (errs : List String) (reqs sleeps : Nat) (h : found ≤ maxResults) :
    (frilLoop dd maxResults pages restaurants found errs reqs sleeps).restaurants.length
        + found
      ≤ restaurants.length + maxResults := by
  induction pages generalizing restaurants found errs reqs sleeps with
  | nil =>
      unfold frilLoop
      split
      · simp only
        omega
      · simp only
        omega
  | cons data rest ih =>
      unfold frilLoop
      split
      · split
        · simp only
          omega
        · have hfle := processPlaces_found_le dd maxResults data.results restaurants found h
          have hfge := processPlaces_found_ge dd maxResults data.results restaurants found
          have hlen := processPlaces_length dd maxResults data.results restaurants found
          split
          · simp only
            omega
          · have hrec := ih (processPlaces dd maxResults data.results restaurants found).1
              (processPlaces dd maxResults data.results restaurants found).2
              errs (reqs + 1) (sleeps + 1) hfle
            omega
      · simp only
        omega

theorem frilLoop_non_ok_status (dd : String → DetailsResp) (maxResults : Nat)
    (data : PageResp) (rest : List PageResp) (rs : List RInfo) (found : Nat)
    (errs : List String) (reqs sleeps : Nat)
    (hc : found < maxResults) (hbad : data.status ≠ "OK") :
    frilLoop dd maxResults (data :: rest) rs found errs reqs sleeps
      = { restaurants := rs,
          errors := errs ++ ["Error fetching restaurants: " ++ data.status],
          requests := reqs + 1, sleeps := sleeps } := by
  unfold frilLoop
  rw [if_pos hc, if_pos hbad]

theorem frilLoop_cons_capped_page (dd : String → DetailsResp) (maxResults : Nat)
    (data : PageResp) (rest : List PageResp) (rs : List RInfo) (found : Nat)
    (errs : List String) (reqs sleeps : Nat) (tok : String)
    (hc : found < maxResults) (hok : data.status = "OK")
    (htok : data.next_page_token = some tok)
    (hcap : maxResults ≤ (processPlaces dd maxResults data.results rs found).2) :
    frilLoop dd maxResults (data :: rest) rs found errs reqs sleeps
      = { restaurants := (processPlaces dd maxResults data.results rs found).1,
          errors := errs, requests := reqs + 1, sleeps := sleeps + 1 } := by
  unfold frilLoop
  rw [if_pos hc, if_neg (fun hb => hb hok), htok]
  exact frilLoop_at_cap dd maxResults rest
    (processPlaces dd maxResults data.results rs found).1
    (processPlaces dd maxResults data.results rs found).2
    errs (reqs + 1) (sleeps + 1) hcap

theorem grLoop_ok_statuses_no_errors (d : String → Option PlaceDetail)
    (maxResults : Nat) (rest : List PageResp) (data : PageResp)
    (acc : List PlaceDetail) (errs : List String) (reqs sleeps : Nat)
    (hdata : data.status = "OK" ∨ data.status = "ZERO_RESULTS")
    (hrest : ∀ p ∈ rest, p.status = "OK" ∨ p.status = "ZERO_RESULTS")
    (hlast : ∀ last, (data :: rest).getLast? = some last
              → last.next_page_token = none) :
    (grLoop d maxResults data rest acc errs reqs sleeps).errors = errs := by
  induction rest generalizing data acc errs reqs sleeps with
  | nil =>
      have htok : data.next_page_token = none := by
        apply hlast
        rfl
      unfold grLoop
      rw [if_neg (fun hb => hdata.elim hb.1 hb.2), if_pos (Or.inr htok)]
  | cons q rest2 ih =>
      unfold grLoop
      rw [if_neg (fun hb => hdata.elim hb.1 hb.2)]
      by_cases hstop : maxResults
            ≤ (acc ++ data.results.filterMap fun p => d p.place_id).length
          ∨ data.next_page_token = none
      · rw [if_pos hstop]
      · rw [if_neg hstop]
        apply ih
        · exact hrest q (List.mem_cons_self q rest2)
        · intro p hp
          exact hrest p (List.mem_cons_of_mem q hp)
        · intro last hl
          apply hlast
          rw [List.getLast?_cons_cons]
          exact hl

/-! ## Lemmas about the cuisine classifier loop -/

theorem cuisineLoop_eq_some_iff (table : List (String × List String))
    (types : List String) (c : String) :
    cuisineLoop table types = some c
      ↔ ∃ pre kws post, table = pre ++ (c, kws) :: post
          ∧ entryMatches types kws = true
          ∧ ∀ e ∈ pre, entryMatches types e.2 = false := by
  induction table with
  | nil =>
      simp only [cuisineLoop]
      constructor
      · intro h
        cases h
      · rintro ⟨pre, kws, post, habs, -, -⟩
        exact absurd habs.symm (List.append_ne_nil_of_right_ne_nil pre (by simp))
  | cons entry rest ih =>
      obtain ⟨lbl, kws0⟩ := entry
      by_cases hm : entryMatches types kws0
      · simp only [cuisineLoop, if_pos hm]
        constructor
        · intro h
          injection h with h2
          subst h2
          exact ⟨[], kws0, rest, rfl, hm, by simp⟩
        · rintro ⟨pre, kws, post, hdec, hkw, hpre⟩
          cases pre with
          | nil =>
              simp only [List.nil_append, List.cons.injEq, Prod.mk.injEq] at hdec
              rw [hdec.1.1]
          | cons e pre2 =>
              simp only [List.cons_append, List.cons.injEq] at hdec
              obtain ⟨he, -⟩ := hdec
              have := hpre e (List.mem_cons_self e pre2)
              rw [← he] at this
              simp only at this
              rw [hm] at this
              cases this
      · simp only [cuisineLoop, if_neg hm]
        rw [ih]
        constructor
        · rintro ⟨pre, kws, post, hdec, hkw, hpre⟩
          refine ⟨(lbl, kws0) :: pre, kws, post, by rw [hdec]; rfl, hkw, ?_⟩
          intro e he
          rcases List.mem_cons.mp he with rfl | he2
          · simpa using hm
          · exact hpre e he2
        · rintro ⟨pre, kws, post, hdec, hkw, hpre⟩
          cases pre with
          | nil =>
              simp only [List.nil_append, List.cons.injEq, Prod.mk.injEq] at hdec
              rw [← hdec.1.2] at hkw
              exact absurd hkw (by simpa using hm)
          | cons e pre2 =>
              simp only [List.cons_append, List.cons.injEq] at hdec
              obtain ⟨-, hrest⟩ := hdec
              exact ⟨pre2, kws, post, hrest, hkw,
                fun e2 he2 => hpre e2 (List.mem_cons_of_mem e he2)⟩

/-! ## Lemmas about the wizard handlers -/

theorem get_location_coordinates_soft_fail_errs (statusCode : Nat) (r : GeoResp)
    (errs : List String)
    (h : get_location_coordinates statusCode r = Except.ok (none, errs)) :
    errs ≠ [] := by
  unfold get_location_coordinates at h
  split at h
  · simp only [Except.ok.injEq, Prod.mk.injEq] at h
    rw [← h.2]
    simp
  · split at h
    · simp only [Except.ok.injEq, Prod.mk.injEq] at h
      rw [← h.2]
      simp
    · split at h
      · cases h
      · simp only [Except.ok.injEq, Prod.mk.injEq] at h
        cases h.1

/-! ## Concrete fixtures used by the claim theorems -/

/-- A representative place-details record. -/
def detailX : PlaceDetail := { name := "X" }

/-- A details endpoint on which every lookup succeeds
(for `RestaurantFinder.get_place_details`). -/
def dAll : String → Option PlaceDetail := fun _ => some detailX

/-- A representative analyzer details payload. -/
def infoX : PlaceInfo := { name := some "X", types := none, editorial_summary := none }

/-- A details endpoint on which every lookup succeeds (for the analyzer). -/
def ddAll : String → DetailsResp := fun _ => { status := "OK", result := some infoX }

/-- An OK page with two places and no continuation token. -/
def twoPlaceLastPage : PageResp :=
  { status := "OK", error_message := none,
    results := [{ place_id := "p1" }, { place_id := "p2" }],
    next_page_token := none }

/-- An OK page with two places that carries a continuation token. -/
def twoPlaceTokenPage : PageResp :=
  { status := "OK", error_message := none,
    results := [{ place_id := "p1" }, { place_id := "p2" }],
    next_page_token := some "tok" }

/-- An empty ZERO_RESULTS page. -/
def zeroPage : PageResp :=
  { status := "ZERO_RESULTS", error_message := none, results := [],
    next_page_token := none }

/-! ## The claims -/

/-- C1, counterexample: with `max_results = 1`, one OK page holding two
places (both of whose detail fetches succeed) and no token, Restaurantreco's
`get_nearby_restaurants` returns 2 PlaceDetail records — more than the cap —
because the cap is only consulted after the whole page has been detailed and
appended, and the result list is never truncated. -/
theorem c1_pagination_cap_cex :
    1 < (get_nearby_restaurants dAll 1 [twoPlaceLastPage]).results.length := by
  decide

/-- C1, amended: `fetch_restaurants_in_location` (part_000) adds at most
`max_results` records to the accumulator it starts from, stopping mid-page,
and once the count has reached the cap it issues no further page request;
`get_nearby_restaurants` (Restaurantreco) stops issuing further page requests
once the accumulator holds at least `max_results` records, but completes the
current page, so its result list may exceed `max_results`. -/
theorem c1_pagination_cap :
    (∀ dd maxResults pages init,
        (fetch_restaurants_in_location dd maxResults pages init).restaurants.length
          ≤ init.length + maxResults)
    ∧ (∀ dd maxResults pages rs found errs reqs sleeps,
        maxResults ≤ found →
        frilLoop dd maxResults pages rs found errs reqs sleeps
          = { restaurants := rs, errors := errs,
              requests := reqs, sleeps := sleeps })
    ∧ (∀ d maxResults data rest acc errs reqs sleeps,
        maxResults ≤ acc.length
            + (data.results.filterMap fun p => d p.place_id).length →
        (grLoop d maxResults data rest acc errs reqs sleeps).requests = reqs) := by
  refine ⟨?_, frilLoop_at_cap, ?_⟩
  · intro dd maxResults pages init
    have h := frilLoop_length_le dd maxResults pages init 0 [] 0 0 (Nat.zero_le _)
    unfold fetch_restaurants_in_location
    omega
  · intro d maxResults data rest acc errs reqs sleeps h
    exact (grLoop_capped d maxResults data rest acc errs reqs sleeps h).1

/-- C1, witness: the amended bound applied to a concrete run — with cap 1 and
one two-place page the analyzer returns at most one record. -/
theorem c1_pagination_cap_witness :
    (fetch_restaurants_in_location ddAll 1 [twoPlaceTokenPage] []).restaurants.length
      ≤ ([] : List RInfo).length + 1 :=
  c1_pagination_cap.1 ddAll 1 [twoPlaceTokenPage] []

/-- The populated session of `src/Restaurantreco.py` at step 4 used to
exhibit the restart bug: answers recorded and restaurants fetched. -/
def sessionAtStep4 : RecoSession :=
  { step := some 4, total_steps := some 6, location := some (some "Paris"),
    location_data := some (some { lat := 1, lng := 2,
                                  formatted_address := "Paris, France" }),
    establishment_type := some (some "Restaurant"),
    distance := some (some 1000),
    restaurants_data := some (some [detailX]), max_results := some 60,
    current_question := some 1, questions := some none,
    answers := some [("Q1", "A")], final_recommendation := some none }

/-- C2: the `Restart` buttons call `initialize_session_state()` alone, and
that function only fills keys that are absent, so on a populated session the
restart is a no-op — the step stays at 4 and the answers and fetched
PlaceDetail list survive, against the claim (and against
`initialize_session_state`'s own docstring "Initialize or reset session
state variables").  Only the separate `Start New Search` handler, which
deletes every key first, performs the full reset the claim describes. -/
theorem c2_restart_reset_bug :
    (restart_click sessionAtStep4).step = some 4
    ∧ (restart_click sessionAtStep4).answers = some [("Q1", "A")]
    ∧ (restart_click sessionAtStep4).restaurants_data = some (some [detailX])
    ∧ restart_click sessionAtStep4 = sessionAtStep4
    ∧ (start_new_search sessionAtStep4).step = some 1
    ∧ (start_new_search sessionAtStep4).answers = some []
    ∧ (start_new_search sessionAtStep4).restaurants_data = some none := by
  decide

/-- C3: the keyword classifier returns the first taxonomy label, in
declaration order, one of whose keywords occurs (case-insensitively) in one
of the tags, and the no-match marker (Python `None`, the spec's "unknown"
label, rendered `N/A`) otherwise; in particular `italian_restaurant` is
classified `Italian` and `gas_station` matches nothing.  The `Option String`
result makes multi-label output impossible. -/
theorem c3_keyword_classifier :
    filter_cuisine_types ["italian_restaurant"] = some "Italian"
    ∧ filter_cuisine_types ["gas_station"] = none
    ∧ ∀ types c, filter_cuisine_types types = some c
        ↔ ∃ pre kws post, CUISINE_KEYWORDS = pre ++ (c, kws) :: post
            ∧ entryMatches types kws = true
            ∧ ∀ e ∈ pre, entryMatches types e.2 = false := by
  refine ⟨by decide, by decide, ?_⟩
  intro types c
  exact cuisineLoop_eq_some_iff CUISINE_KEYWORDS types c

/-- C4: `get_best_review` equals the first-maximum selector (maximal rating,
earliest review on ties — the head of the stable descending sort), the
selected review is a member with maximal rating key, and the three end-to-end
examples of the spec hold, `[]` giving `none`. -/
theorem c4_best_review :
    (∀ l, get_best_review l = specFirstMaxReview l)
    ∧ (∀ l r, specFirstMaxReview l = some r
        → r ∈ l ∧ ∀ x ∈ l, ratingKey x ≤ ratingKey r)
    ∧ get_best_review [⟨some 3, "r3"⟩, ⟨some 5, "r5"⟩, ⟨some 4, "r4"⟩]
        = some ⟨some 5, "r5"⟩
    ∧ get_best_review [⟨some 3, "r3"⟩, ⟨some 2, "r2"⟩] = some ⟨some 3, "r3"⟩
    ∧ get_best_review [] = none :=
  ⟨get_best_review_eq_spec, specFirstMaxReview_mem_max, by decide, by decide, rfl⟩

/-- C4, witness: the maximality conjunct applied at a concrete list. -/
theorem c4_best_review_witness :
    specFirstMaxReview [⟨some 3, "r3"⟩, ⟨some 5, "r5"⟩] = some ⟨some 5, "r5"⟩
    ∧ (⟨some 5, "r5"⟩ : Review) ∈ [⟨some 3, "r3"⟩, ⟨some 5, "r5"⟩]
    ∧ ∀ x ∈ [(⟨some 3, "r3"⟩ : Review), ⟨some 5, "r5"⟩],
        ratingKey x ≤ ratingKey ⟨some 5, "r5"⟩ := by
  have h := c4_best_review.2.1 [⟨some 3, "r3"⟩, ⟨some 5, "r5"⟩] ⟨some 5, "r5"⟩ (by decide)
  exact ⟨by decide, h.1, h.2⟩

/-- C5, counterexample: a run of `fetch_restaurants_in_location` with
`max_results = 1` on one OK page with two places and a token reaches the cap
mid-page but still performs the 2-second delay (one `time.sleep(2)` call),
because the source sleeps before re-checking the cap; it does issue no
further page request. -/
theorem c5_cap_short_circuit_cex :
    (fetch_restaurants_in_location ddAll 1 [twoPlaceTokenPage] []).requests = 1
    ∧ (fetch_restaurants_in_location ddAll 1 [twoPlaceTokenPage] []).sleeps = 1 := by
  decide

/-- C5, amended: with a token present and the accumulator at the cap,
Restaurantreco's controller issues no further page request and performs no
delay (its cap check precedes the sleep); part_000's controller likewise
issues no further page request, but performs one final 2-second delay before
the cap check at the loop head stops it — and once the count is at the cap,
its loop body never runs at all. -/
theorem c5_cap_short_circuit :
    (∀ d maxResults data rest acc errs reqs sleeps tok,
        data.next_page_token = some tok →
        maxResults ≤ acc.length
            + (data.results.filterMap fun p => d p.place_id).length →
        (grLoop d maxResults data rest acc errs reqs sleeps).requests = reqs
          ∧ (grLoop d maxResults data rest acc errs reqs sleeps).sleeps = sleeps)
    ∧ (∀ dd maxResults data rest rs found errs reqs sleeps tok,
        found < maxResults → data.status = "OK" →
        data.next_page_token = some tok →
        maxResults ≤ (processPlaces dd maxResults data.results rs found).2 →
        frilLoop dd maxResults (data :: rest) rs found errs reqs sleeps
          = { restaurants := (processPlaces dd maxResults data.results rs found).1,
              errors := errs, requests := reqs + 1, sleeps := sleeps + 1 })
    ∧ (∀ dd maxResults pages rs found errs reqs sleeps,
        maxResults ≤ found →
        frilLoop dd maxResults pages rs found errs reqs sleeps
          = { restaurants := rs, errors := errs,
              requests := reqs, sleeps := sleeps }) := by
  refine ⟨?_, frilLoop_cons_capped_page, frilLoop_at_cap⟩
  intro d maxResults data rest acc errs reqs sleeps tok htok h
  exact grLoop_capped d maxResults data rest acc errs reqs sleeps h

/-- C5, witness: the Restaurantreco conjunct at a concrete capped page — no
extra request and no sleep. -/
theorem c5_cap_short_circuit_witness :
    (grLoop dAll 1 twoPlaceTokenPage [] [] [] 1 0).requests = 1
    ∧ (grLoop dAll 1 twoPlaceTokenPage [] [] [] 1 0).sleeps = 0 :=
  c5_cap_short_circuit.1 dAll 1 twoPlaceTokenPage [] [] [] 1 0 "tok" rfl (by decide)

/-- C6, counterexample: part_000's controller prints a ZERO_RESULTS status as
an error ("Error fetching restaurants: ZERO_RESULTS") and stops — it treats
ZERO_RESULTS exactly like any other non-OK status, against the claim that
ZERO_RESULTS is never treated as an error. -/
theorem c6_zero_results_cex :
    (fetch_restaurants_in_location ddAll 10 [zeroPage] []).errors
      = ["Error fetching restaurants: ZERO_RESULTS"] := by
  decide

/-- C6, amended: Restaurantreco's controller emits no error on runs whose
pages all carry status OK or ZERO_RESULTS (ZERO_RESULTS is an empty
successful page there), and on any other status it stops at once, surfaces
the status, and returns the records accumulated so far; part_000's
controller treats every status other than OK — ZERO_RESULTS included — as an
error, printing it, stopping, and likewise returning what was accumulated
rather than raising. -/
theorem c6_status_error_policy :
    (∀ d maxResults pages,
        (∀ p ∈ pages, p.status = "OK" ∨ p.status = "ZERO_RESULTS") →
        (∀ last, pages.getLast? = some last → last.next_page_token = none) →
        pages ≠ [] →
        (get_nearby_restaurants d maxResults pages).errors = [])
    ∧ (∀ d maxResults data rest acc errs reqs sleeps,
        data.status ≠ "OK" → data.status ≠ "ZERO_RESULTS" →
        grLoop d maxResults data rest acc errs reqs sleeps
          = { results := acc, errors := errs ++ pageErrors data,
              requests := reqs, sleeps := sleeps })
    ∧ (∀ dd maxResults data rest rs found errs reqs sleeps,
        found < maxResults → data.status = "ZERO_RESULTS" →
        frilLoop dd maxResults (data :: rest) rs found errs reqs sleeps
          = { restaurants := rs,
              errors := errs ++ ["Error fetching restaurants: " ++ data.status],
              requests := reqs + 1, sleeps := sleeps }) := by
  refine ⟨?_, grLoop_bad_status, ?_⟩
  · intro d maxResults pages hstat hlast hne
    cases pages with
    | nil => exact absurd rfl hne
    | cons p ps =>
        unfold get_nearby_restaurants
        exact grLoop_ok_statuses_no_errors d maxResults ps p [] [] 1 0
          (hstat p (List.mem_cons_self p ps))
          (fun q hq => hstat q (List.mem_cons_of_mem p hq)) hlast
  · intro dd maxResults data rest rs found errs reqs sleeps hc hz
    have hbad : data.status ≠ "OK" := by
      rw [hz]
      decide
    exact frilLoop_non_ok_status dd maxResults data rest rs found errs reqs sleeps hc hbad

/-- C6, witness: the error-free conjunct at a concrete all-OK run, and the
partial-result conjunct at a concrete failing page. -/
theorem c6_status_error_policy_witness :
    (get_nearby_restaurants dAll 5 [twoPlaceLastPage]).errors = []
    ∧ grLoop dAll 5 invalidPage [] [detailX] ["old"] 2 1
        = { results := [detailX], errors := ["old"] ++ pageErrors invalidPage,
            requests := 2, sleeps := 1 } := by
  constructor
  · apply c6_status_error_policy.1 dAll 5 [twoPlaceLastPage]
    · decide
    · intro last hl
      rw [show ([twoPlaceLastPage].getLast? = some twoPlaceLastPage) from by decide] at hl
      injection hl with h2
      rw [← h2]
      rfl
    · simp
  · exact c6_status_error_policy.2.1 dAll 5 invalidPage [] [detailX] ["old"] 2 1
      (by decide) (by decide)

/-- The autocomplete response exhibiting C7's failure: a non-OK status that
still carries predictions. -/
def deniedAutoResp : AutoResp :=
  { status := some "REQUEST_DENIED", error_message := none,
    predictions := some [{ description := "Paris, France" }] }

/-- C7, counterexample: `RestaurantRecommender.get_place_suggestions`
(aichatbot) never reads the upstream status — on a REQUEST_DENIED response
that still carries a prediction it returns that prediction instead of the
empty sequence the claim requires, and it surfaces nothing. -/
theorem c7_suggest_soft_fail_cex :
    deniedAutoResp.status = some "REQUEST_DENIED"
    ∧ chatbot_get_place_suggestions deniedAutoResp = ["Paris, France"]
    ∧ chatbot_get_place_suggestions deniedAutoResp ≠ [] := by
  refine ⟨rfl, rfl, ?_⟩
  decide

/-- C7, amended: Restaurantreco's `get_place_suggestions` fails soft as the
claim describes — on a non-OK status it returns the empty sequence and
surfaces the status, and a missing `predictions` field yields the empty
sequence; aichatbot's variant is total and returns empty on a missing
`predictions` field, but it ignores the status entirely, returning whatever
predictions the response carries. -/
theorem c7_suggest_soft_fail :
    (∀ r s, r.status = some s → s ≠ "OK" →
        ∃ errs, reco_get_place_suggestions 200 r = Except.ok ([], errs)
          ∧ ("API Error: " ++ s) ∈ errs)
    ∧ (∀ r, r.status = some "OK" → r.predictions = none →
        reco_get_place_suggestions 200 r = Except.ok ([], []))
    ∧ (∀ r, r.predictions = none → chatbot_get_place_suggestions r = [])
    ∧ (∀ r ps, r.predictions = some ps →
        chatbot_get_place_suggestions r = ps.map Prediction.description) := by
  refine ⟨?_, ?_, ?_, ?_⟩
  · intro r s hst hs
    refine ⟨("API Error: " ++ s) ::
      (match r.error_message with
       | some m => ["Error Message: " ++ m]
       | none => []), ?_, List.mem_cons_self _ _⟩
    simp [reco_get_place_suggestions, hst, hs]
  · intro r hst hpred
    simp [reco_get_place_suggestions, hst, hpred]
  · intro r hpred
    simp [chatbot_get_place_suggestions, hpred]
  · intro r ps hpred
    simp [chatbot_get_place_suggestions, hpred]

/-- C7, witness: the soft-fail conjunct at the concrete denied response. -/
theorem c7_suggest_soft_fail_witness :
    ∃ errs, reco_get_place_suggestions 200 deniedAutoResp = Except.ok ([], errs)
      ∧ ("API Error: " ++ "REQUEST_DENIED") ∈ errs :=
  c7_suggest_soft_fail.1 deniedAutoResp "REQUEST_DENIED" rfl (by decide)

/-- C8: on each wizard step the advance is rejected when its required input
is absent or invalid — the step is unchanged and an error is surfaced.  From
LocationInput (step 1), an unresolved location leaves the whole session
untouched with the resolver's diagnostics; from DistanceSelect (step 2), a
selection that is no key of `distance_options` raises `KeyError` before any
assignment, leaving the session unchanged with the exception surfaced; from
CategorySelect (step 3), an empty fetch keeps the step with an error. -/
theorem c8_wizard_rejects_invalid :
    (∀ statusCode resp sel s,
        (∀ ld errs, get_location_coordinates statusCode resp
            ≠ Except.ok (some ld, errs)) →
        (location_next statusCode resp sel s).1 = s
          ∧ (location_next statusCode resp sel s).2 ≠ [])
    ∧ (∀ sel s, lookupDistance sel = none →
        (distance_next sel s).1 = s ∧ (distance_next sel s).2 ≠ [])
    ∧ (∀ d pages selType s,
        (get_nearby_restaurants d (s.max_results.getD 60) pages).results = [] →
        (search_next d pages selType s).1.step = s.step
          ∧ (search_next d pages selType s).2 ≠ []) := by
  refine ⟨?_, ?_, ?_⟩
  · intro statusCode resp sel s hfail
    cases hres : get_location_coordinates statusCode resp with
    | error e =>
        simp [location_next, hres]
    | ok v =>
        obtain ⟨opt, errs⟩ := v
        cases opt with
        | none =>
            refine ⟨by simp [location_next, hres], ?_⟩
            have hne := get_location_coordinates_soft_fail_errs statusCode resp errs hres
            simpa [location_next, hres] using hne
        | some ld => exact absurd hres (hfail ld errs)
  · intro sel s hnone
    refine ⟨by simp [distance_next, hnone], by simp [distance_next, hnone]⟩
  · intro d pages selType s hempty
    refine ⟨by simp [search_next, hempty], by simp [search_next, hempty]⟩

/-- A geocoding response with a non-OK status, for the C8 witness. -/
def badGeoResp : GeoResp :=
  { status := "ZERO_RESULTS", error_message := none, results := [] }

/-- C8, witness: the three rejection conjuncts at concrete invalid inputs. -/
theorem c8_wizard_rejects_invalid_witness :
    ((location_next 200 badGeoResp "Paris" sessionAtStep4).1 = sessionAtStep4
      ∧ (location_next 200 badGeoResp "Paris" sessionAtStep4).2 ≠ [])
    ∧ ((distance_next "Within 2 km" sessionAtStep4).1 = sessionAtStep4
      ∧ (distance_next "Within 2 km" sessionAtStep4).2 ≠ [])
    ∧ ((search_next dAll [zeroPage] "Cafe" sessionAtStep4).1.step
          = sessionAtStep4.step
      ∧ (search_next dAll [zeroPage] "Cafe" sessionAtStep4).2 ≠ []) := by
  refine ⟨?_, ?_, ?_⟩
  · apply c8_wizard_rejects_invalid.1 200 badGeoResp "Paris" sessionAtStep4
    intro ld errs h
    rw [show get_location_coordinates 200 badGeoResp
        = Except.ok (none, [("Geocoding Error: " ++ "ZERO_RESULTS")]) from rfl] at h
    simp at h
  · exact c8_wizard_rejects_invalid.2.1 "Within 2 km" sessionAtStep4 (by decide)
  · exact c8_wizard_rejects_invalid.2.2 dAll [zeroPage] "Cafe" sessionAtStep4 (by decide)

/-- C9: in `get_best_review` a review with no rating field sorts with key 0,
so whenever some review of the list has a positive rating the selected
review itself carries a rating (it is never an unrated one), and a non-empty
list whose reviews all lack ratings yields its first review. -/
theorem c9_unrated_reviews :
    (∀ x : Review, x.rating = none → ratingKey x = 0)
    ∧ (∀ l r x, get_best_review l = some r → x ∈ l → 0 < ratingKey x
        → r.rating ≠ none)
    ∧ (∀ l, l ≠ [] → (∀ x ∈ l, x.rating = none)
        → get_best_review l = l.head?) := by
  refine ⟨?_, ?_, ?_⟩
  · intro x hx
    simp [ratingKey, hx]
  · intro l r x hbest hx hpos
    rw [get_best_review_eq_spec] at hbest
    obtain ⟨-, hmax⟩ := specFirstMaxReview_mem_max l r hbest
    have h1 := hmax x hx
    intro hnone
    have hzero : ratingKey r = 0 := by simp [ratingKey, hnone]
    omega
  · intro l hne hall
    rw [get_best_review_eq_spec]
    exact specFirstMaxReview_all_unrated l hall

/-- C9, witness: the two selector conjuncts at concrete lists — an unrated
review is passed over for a rated one, and an all-unrated list yields its
head. -/
theorem c9_unrated_reviews_witness :
    (⟨some 4, "rated"⟩ : Review).rating ≠ none
    ∧ get_best_review [⟨none, "u1"⟩, ⟨none, "u2"⟩]
        = ([⟨none, "u1"⟩, ⟨none, "u2"⟩] : List Review).head? := by
  constructor
  · exact c9_unrated_reviews.2.1 [⟨none, "u"⟩, ⟨some 4, "rated"⟩] ⟨some 4, "rated"⟩
      ⟨some 4, "rated"⟩ (by decide) (by decide) (by decide)
  · exact c9_unrated_reviews.2.2 [⟨none, "u1"⟩, ⟨none, "u2"⟩] (by decide) (by decide)

/-- C10: with a price filter p (Python-truthy, so p ≠ 0) the price stage
keeps exactly the places whose `price_level` equals p — places lacking the
field are dropped — and with no filter the list passes through unchanged. -/
theorem c10_price_filter_exact :
    (∀ p rests r, p ≠ 0 →
        (r ∈ priceFilterStage (some p) rests ↔ r ∈ rests ∧ r.price_level = some p))
    ∧ (∀ p rests r, p ≠ 0 → r.price_level = none →
        r ∉ priceFilterStage (some p) rests)
    ∧ (∀ rests, priceFilterStage none rests = rests) := by
  have hmem : ∀ p rests (r : NearPlace), p ≠ 0 →
      (r ∈ priceFilterStage (some p) rests ↔ r ∈ rests ∧ r.price_level = some p) := by
    intro p rests r hp
    unfold priceFilterStage
    rw [if_pos (by simpa [pyTruthyNat] using hp), List.mem_filter]
    constructor
    · rintro ⟨h1, h2⟩
      exact ⟨h1, by simpa using h2⟩
    · rintro ⟨h1, h2⟩
      exact ⟨h1, by simpa using h2⟩
  refine ⟨hmem, ?_, ?_⟩
  · intro p rests r hp hnone hin
    have h2 := ((hmem p rests r hp).mp hin).2
    rw [hnone] at h2
    cases h2
  · intro rests
    unfold priceFilterStage
    rw [if_neg (by simp [pyTruthyNat])]

/-- C10, witness: the membership conjunct at a concrete list — the level-2
place is kept, the unpriced one dropped. -/
theorem c10_price_filter_exact_witness :
    (⟨"a", some 2⟩ : NearPlace) ∈
        priceFilterStage (some 2) [⟨"a", some 2⟩, ⟨"b", none⟩]
    ∧ (⟨"b", none⟩ : NearPlace) ∉
        priceFilterStage (some 2) [⟨"a", some 2⟩, ⟨"b", none⟩] := by
  constructor
  · exact (c10_price_filter_exact.1 2 [⟨"a", some 2⟩, ⟨"b", none⟩] ⟨"a", some 2⟩
      (by decide)).mpr ⟨by decide, rfl⟩
  · exact c10_price_filter_exact.2.1 2 [⟨"a", some 2⟩, ⟨"b", none⟩] ⟨"b", none⟩
      (by decide) rfl
